import Mathlib

set_option maxRecDepth 100000

/-!
Verification of the Pocket-to-Notion CSV importer (`pocket2notion.py`)
against its specification. The pipeline is embedded shallowly:

* a pandas row cell is `Cell` (column absent, NaN value, or a string value);
  pandas' `Series.get(key, default)` and `pd.isna` are embedded on it;
* `datetime.fromtimestamp` is modelled as the epoch-seconds integer itself;
* the Notion client's network effects (`databases.retrieve`, `pages.create`)
  are oracle parameters: the retrieved schema is an `Option (List String)`
  (`none` = transport error) and each page-creation outcome is a
  `PublishOutcome`;
* Python machine floats (the timestamp conversion and the success-rate
  format string) are modelled exactly: decimal text is correctly rounded to
  IEEE-754 binary64, each arithmetic step rounds its exact result, ties to
  even, and `int(...)` truncates the double toward zero;
* exception flow is explicit: error kinds inside the caught
  `(ValueError, TypeError, OSError)` tuple of the timestamp handler are
  distinguished from the uncaught `OverflowError` that aborts the parse.
-/

namespace Pocket2Notion

/-- One cell of a pandas row, as seen by the importer: the column may be
absent from the file, the value may be NaN (pandas stores a float NaN for an
empty CSV field), or it is a string value. -/
inductive Cell where
  | absent
  | nan
  | val (s : String)
deriving Repr, DecidableEq

/-- A Python value handed back by `Series.get`: either the float NaN stored
in the frame, or a string. -/
inductive PyVal where
  | nan
  | str (s : String)
deriving Repr, DecidableEq

/-- Embeds pandas `row.get(key, default)`: the default is returned only when
the column is absent; a NaN cell value is returned as-is. -/
def Cell.get : Cell → String → PyVal
  | .absent, d => .str d
  | .nan, _ => .nan
  | .val s, _ => .str s

/-- Embeds pandas `row.get(key)` (default `None`) followed by the importer's
`pd.isna` test: an absent column yields Python `None`, and `pd.isna` is true
on `None` exactly as on NaN, so both collapse to `nan` here. -/
def Cell.getOpt : Cell → PyVal
  | .absent => .nan
  | .nan => .nan
  | .val s => .str s

/-- Embeds `pd.isna` on a value obtained from `Cell.get`. -/
def PyVal.isna : PyVal → Bool
  | .nan => true
  | .str _ => false

/-- Embeds Python `str(...)` on a value obtained from `Cell.get`:
`str` of the float NaN is the literal string `"nan"`. -/
def PyVal.pyStr : PyVal → String
  | .nan => "nan"
  | .str s => s

/-- One data row of the Pocket CSV export, restricted to the five columns
the importer reads. -/
structure Row where
  title : Cell
  url : Cell
  tags : Cell
  time_added : Cell
  status : Cell
deriving Repr, DecidableEq

/-- The normalized article record produced by `parse_pocket_csv`.
`added_date` holds the `datetime.fromtimestamp` result, modelled as the
epoch-seconds integer it was built from. -/
structure Article where
  title : String
  url : String
  tags : List String
  added_date : Option Int
  time_added : Option String
  status : String
deriving Repr, DecidableEq

/-- Embeds Python `str.strip()`: removes whitespace from both ends of the
character sequence. -/
def pyStrip (s : String) : String :=
  String.mk (((s.data.dropWhile Char.isWhitespace).reverse.dropWhile Char.isWhitespace).reverse)

/-- Splits a character sequence on every occurrence of `c`, keeping empty
fragments, accumulating the current fragment in reverse. -/
def splitCharAux (c : Char) : List Char → List Char → List (List Char)
  | [], acc => [acc.reverse]
  | x :: xs, acc =>
    if x = c then acc.reverse :: splitCharAux c xs [] else splitCharAux c xs (x :: acc)

/-- Embeds Python `s.split(c)` for a one-character separator: all
fragments, empties included, in order. -/
def pySplit (s : String) (c : Char) : List String :=
  (splitCharAux c s.data []).map String.mk

/-- Embeds Python `c in s` for a single character. -/
def pyContainsChar (s : String) (c : Char) : Bool :=
  s.data.contains c

/-- Embeds Python `s[:n]`: the first `n` characters of `s`. -/
def pySliceTo (s : String) (n : Nat) : String :=
  String.mk (s.data.take n)

/-- Numeric value of a sequence of decimal digits (0 when empty). -/
def digitsVal (l : List Char) : Nat :=
  l.foldl (fun n c => 10 * n + (c.toNat - '0'.toNat)) 0

/-- Bit length of `n` (`⌊log₂ n⌋ + 1` for positive `n`) by chunked halving:
`bitLenPow2 k n` is correct for every `n` below `2 ^ 2 ^ k`. -/
def bitLenPow2 : Nat → Nat → Nat
  | 0, n => if n = 0 then 0 else 1
  | k + 1, n =>
    let h := 2 ^ 2 ^ k
    if n < h then bitLenPow2 k n else bitLenPow2 k (n / h) + 2 ^ k

/-- Bit length, valid below `2 ^ 4096` — ample for every quantity this
development rounds (all are below `2 ^ 2230`). -/
def bitLen (n : Nat) : Nat := bitLenPow2 12 n

/-- A nonnegative IEEE-754 binary64 magnitude: a finite value `m * 2 ^ e`
(zero, a normalized significand with `2^52 ≤ m < 2^53`, or a subnormal with
`e = -1074`), or infinity. -/
inductive Double64 where
  | fin (m : Nat) (e : Int)
  | inf
deriving Repr, DecidableEq

/-- Correctly rounds the exact nonnegative rational `num / den` (`den > 0`)
to the nearest binary64 magnitude, ties to even; values at or beyond the
overflow threshold `2^1024 - 2^970` become infinity and values at or below
`2 ^ (-1075)` become zero. This is the rounding CPython performs for
`float` string conversion, for true division of integers, and for each
float arithmetic operation. The scaling factor `2 ^ 1200` exceeds every
binary exponent reachable here, so `S` carries all bits above the rounding
point and the division remainder `R` supplies the sticky information for
exact tie detection. -/
def roundRatToDouble (num den : Nat) : Double64 :=
  if num = 0 then .fin 0 0
  else if den * 2 ^ 1024 ≤ num then .inf
  else if num * 2 ^ 1075 ≤ den then .fin 0 0
  else
    let S := num * 2 ^ 1200 / den
    let R := num * 2 ^ 1200 % den
    let f : Int := (bitLen S : Int) - 1201
    let e : Int := max (f - 52) (-1074)
    let shift : Nat := (e + 1200).toNat
    let q := S / 2 ^ shift
    let r := S % 2 ^ shift
    let half := 2 ^ (shift - 1)
    let m :=
      if r < half then q
      else if half < r then q + 1
      else if R ≠ 0 then q + 1
      else if q % 2 = 0 then q else q + 1
    let me : Nat × Int := if m = 2 ^ 53 then (2 ^ 52, e + 1) else (m, e)
    if 971 < me.2 then .inf else .fin me.1 me.2

/-- Truncation toward zero of a finite binary64 magnitude, as Python
`int(x)` performs on a float. -/
def truncDouble (m : Nat) (e : Int) : Nat :=
  if 0 ≤ e then m * 2 ^ e.toNat else m / 2 ^ (-e).toNat

/-- Continuation of a digit run after an initial digit: further digits with
single underscores strictly between digits, as Python numeric strings
allow. -/
def digitRunRest : List Char → Option (List Char)
  | [] => some []
  | '_' :: c :: rest =>
    if c.isDigit then (digitRunRest rest).map (fun l => c :: l) else none
  | ['_'] => none
  | c :: rest =>
    if c.isDigit then (digitRunRest rest).map (fun l => c :: l) else none

/-- A non-empty digit run (the digits, with underscores removed). -/
def digitRun : List Char → Option (List Char)
  | [] => none
  | c :: rest => if c.isDigit then (digitRunRest rest).map (fun l => c :: l) else none

/-- A possibly-empty digit run. -/
def digitRunOpt (l : List Char) : Option (List Char) :=
  match l with
  | [] => some []
  | _ => digitRun l

/-- Splits at the first occurrence of `c`, when present. -/
def splitFirst (c : Char) : List Char → Option (List Char × List Char)
  | [] => none
  | x :: xs =>
    if x = c then some ([], xs)
    else (splitFirst c xs).map (fun p => (x :: p.1, p.2))

/-- Result of Python `float(s)` on a string: a conversion `ValueError`, a
NaN, an infinity, or a finite double `sign * m * 2 ^ e`. -/
inductive PyFloatVal where
  | err
  | nanv
  | infv
  | finv (sign : Int) (m : Nat) (e : Int)
deriving Repr, DecidableEq

/-- Embeds CPython `float(s)` on a string: strips surrounding whitespace,
handles an optional sign, the case-insensitive `inf`/`infinity`/`nan`
forms, and the decimal grammar `digits [. digits] [e [sign] digits]` with
underscores between digits; the exact decimal value is correctly rounded
to binary64 (an overflowing literal yields infinity, not an exception, and
a vanishing one yields zero). The exponent shortcuts on `decExp` (the
decimal magnitude of the value) only bypass powers that the rounder would
classify identically. -/
def pyFloatParse (s : String) : PyFloatVal :=
  let t := (pyStrip s).data.map Char.toLower
  let sign : Int := match t with | '-' :: _ => -1 | _ => 1
  let body : List Char := match t with
    | '-' :: rest => rest
    | '+' :: rest => rest
    | _ => t
  if body = ['i', 'n', 'f'] ∨ body = ['i', 'n', 'f', 'i', 'n', 'i', 't', 'y'] then .infv
  else if body = ['n', 'a', 'n'] then .nanv
  else
    let mantExp : List Char × Option (List Char) :=
      match splitFirst 'e' body with
      | some (a, b) => (a, some b)
      | none => (body, none)
    let expVal : Option Int :=
      match mantExp.2 with
      | none => some 0
      | some ec =>
        let es : Int := match ec with | '-' :: _ => -1 | _ => 1
        let ed : List Char := match ec with
          | '-' :: rest => rest
          | '+' :: rest => rest
          | _ => ec
        (digitRun ed).map (fun ds => es * digitsVal ds)
    match expVal with
    | none => .err
    | some ev =>
      let mant : Option (List Char × List Char) :=
        match splitFirst '.' mantExp.1 with
        | some (ip, fp) =>
          match digitRunOpt ip, digitRunOpt fp with
          | some i, some f => if i = [] ∧ f = [] then none else some (i, f)
          | _, _ => none
        | none => (digitRun mantExp.1).map (fun ds => (ds, []))
      match mant with
      | none => .err
      | some (ip, fp) =>
        let sig := (ip ++ fp).dropWhile (fun c => c = '0')
        if sig = [] then .finv sign 0 0
        else
          let N := digitsVal sig
          let E : Int := ev - fp.length
          let decExp : Int := sig.length + E
          if 310 ≤ decExp then .infv
          else if decExp ≤ -325 then .finv sign 0 0
          else
            match (if 0 ≤ E then roundRatToDouble (N * 10 ^ E.toNat) 1
                   else roundRatToDouble N (10 ^ (-E).toNat)) with
            | .fin m e => .finv sign m e
            | .inf => .infv

/-- Outcome of `int(float(s))` in the timestamp conversion: a value, a
`ValueError`/`TypeError` (inside the tuple caught at source line 165), or
the `OverflowError` that `int(...)` raises on an infinity — which is
absent from that tuple. -/
inductive PyIntFloatOutcome where
  | val (t : Int)
  | valueError
  | overflowError
deriving Repr, DecidableEq

/-- Embeds Python `int(float(s))`: a conversion failure and `int(nan)`
raise a caught `ValueError`; `int(±inf)` raises `OverflowError`; a finite
double truncates toward zero. -/
def pyIntFloat (s : String) : PyIntFloatOutcome :=
  match pyFloatParse s with
  | .err => .valueError
  | .nanv => .valueError
  | .infv => .overflowError
  | .finv sign m e => .val (sign * truncDouble m e)

/-- Outcome of `datetime.fromtimestamp(t)` on an integer epoch `t`. -/
inductive FtOutcome where
  | ok
  | caughtError
  | overflowError
deriving Repr, DecidableEq

/-- Embeds `datetime.fromtimestamp(t)` for an integer epoch `t` on a 64-bit
platform (calendar bounds stated for UTC; the finite cutoffs shift by the
local timezone offset, the three-way classification does not): within the
supported datetime range — epochs of 0001-01-02T00:00:00 through
9999-12-31T23:59:59, the lower end one day inside year 1 because the
fold-detection probe of `fromtimestamp` looks a day earlier — the call
succeeds; a finite epoch outside it raises `ValueError` (year out of
1..9999) or `OSError` (`localtime` failure), both inside the caught tuple;
an epoch outside the signed 64-bit `time_t` range overflows the conversion
with an uncaught `OverflowError`. -/
def fromtimestamp (t : Int) : FtOutcome :=
  if 2 ^ 63 ≤ t ∨ t < -(2 ^ 63) then .overflowError
  else if -62135510400 ≤ t ∧ t ≤ 253402300799 then .ok
  else .caughtError

/-- Embeds the article-dictionary construction of `parse_pocket_csv`
(source lines 141-156): the title falls back to the URL when the title
value is NaN or empty, `str(...)` is applied to the title, URL and status
values, tags start empty and both date fields start as `None`. -/
def baseArticle (row : Row) : Article :=
  let title0 := row.title.get ""
  let title := if title0.isna || title0 == .str "" then row.url.get "" else title0
  { title := title.pyStr
    url := (row.url.get "").pyStr
    tags := []
    added_date := none
    time_added := none
    status := (row.status.get "unread").pyStr }

/-- Embeds the timestamp step of `parse_pocket_csv` (source lines 158-166):
when the `time_added` value is not NaN, `int(float(...))` and then
`datetime.fromtimestamp` run; on success both fields are set (the datetime
stored as its epoch integer); a `ValueError`/`TypeError`/`OSError` is
caught and logged at lines 165-166, leaving both unset; `none` models an
uncaught `OverflowError` propagating out of the row loop. -/
def applyTimestamp (row : Row) (base : Article) : Option Article :=
  match row.time_added.getOpt with
  | .nan => some base
  | .str s =>
    match pyIntFloat s with
    | .valueError => some base
    | .overflowError => none
    | .val t =>
      match fromtimestamp t with
      | .ok => some { base with added_date := some t, time_added := some (toString t) }
      | .caughtError => some base
      | .overflowError => none

/-- Embeds the tag step of `parse_pocket_csv` (source lines 168-178): a
non-NaN, non-empty tags value is stripped; if the stripped text is
non-empty it is either split on commas (stripped fragments, empties
discarded) or kept whole as a single tag. -/
def applyTags (row : Row) (a : Article) : Article :=
  match row.tags.getOpt with
  | .nan => a
  | .str s =>
    if s = "" then a
    else
      let tagStr := pyStrip s
      if tagStr = "" then a
      else if pyContainsChar tagStr ',' then
        { a with tags := ((pySplit tagStr ',').map pyStrip).filter (· ≠ "") }
      else
        { a with tags := [tagStr] }

/-- Outcome of one iteration of the row loop: the row is skipped (the
`continue` at source line 147), an article is appended, or an uncaught
exception aborts the loop. -/
inductive RowStep where
  | skip
  | keep (a : Article)
  | raise
deriving Repr, DecidableEq

/-- Embeds the per-row body of `PocketToNotionImporter.parse_pocket_csv`
(source lines 139-180), staged as the three source blocks above: the URL
filter, then the dictionary construction, the timestamp step (whose
uncaught `OverflowError` gives `raise`) and the tag step. -/
def parseRow (row : Row) : RowStep :=
  if (row.url.get "").isna then .skip
  else
    match applyTimestamp row (baseArticle row) with
    | none => .raise
    | some a1 => .keep (applyTags row a1)

/-- Embeds `PocketToNotionImporter.parse_pocket_csv` on the decoded data
rows of one file: rows are processed in order, URL-less rows dropped; an
uncaught exception at any row propagates through the re-raising outer
handler at source lines 191-193, so the whole call produces no article
list (`none`). File reading, encoding fallback and the empty-file error
happen before this loop and are external to it. -/
def parse_pocket_csv : List Row → Option (List Article)
  | [] => some []
  | r :: rs =>
    match parseRow r with
    | .skip => parse_pocket_csv rs
    | .keep a => (parse_pocket_csv rs).map (fun l => a :: l)
    | .raise => none

/-- The required Notion database properties of
`check_database_properties` (source line 330). -/
def required_props : List String := ["Title", "URL", "Domain", "Source"]

/-- The optional Notion database properties of
`check_database_properties` (source line 331). -/
def optional_props : List String := ["Status", "AddedDate", "Tags", "ReadingStatus", "Rating"]

/-- Mutable fields of a `PocketToNotionImporter` instance: the two counters
initialized to zero in `__init__` and the cached set of available database
properties. -/
structure ImporterState where
  imported_count : Nat
  error_count : Nat
  available_properties : List String
deriving Repr, DecidableEq

/-- A fresh importer, as built by `PocketToNotionImporter.__init__`. -/
def ImporterState.fresh : ImporterState :=
  { imported_count := 0, error_count := 0, available_properties := [] }

/-- Embeds `PocketToNotionImporter.check_database_properties`
(source lines 312-370). The oracle `retrieve` is the outcome of
`notion.databases.retrieve`: `none` for an API/transport error, otherwise
the list of property names of the database. Returns the boolean result
together with the list of missing required properties written to the error
log (empty when nothing is logged), and the updated instance state
(`available_properties` is cached before the required-property check). -/
def check_database_properties (st : ImporterState) (retrieve : Option (List String)) :
    (Bool × List String) × ImporterState :=
  match retrieve with
  | none => ((false, []), st)
  | some props =>
    let st := { st with available_properties := props }
    let missing := required_props.filter (fun p => decide (p ∉ props))
    ((missing.isEmpty, missing), st)

/-- A typed value in the property payload sent to `notion.pages.create`;
the `date` payload carries the epoch-seconds integer whose ISO rendering
the code sends. -/
inductive PropValue where
  | title (content : String)
  | url (u : String)
  | richText (t : String)
  | select (name : String)
  | date (start : Int)
  | multiSelect (names : List String)
deriving Repr, DecidableEq

/-- Embeds Python `str.capitalize()`: first character uppercased, the rest
lowercased. -/
def pyCapitalize (s : String) : String :=
  match s.data with
  | [] => ""
  | c :: rest => String.mk (c.toUpper :: rest.map Char.toLower)

/-- Characters following the first `"://"` of the sequence, if any. -/
def afterSchemeSep : List Char → Option (List Char)
  | ':' :: '/' :: '/' :: rest => some rest
  | _ :: xs => afterSchemeSep xs
  | [] => none

/-- Embeds the `urllib.parse.urlparse(url).netloc` extraction of
`create_notion_page` (source lines 212-218): the host component is the text
between the first `"://"` and the next `/`, `?` or `#`; a URL without a
scheme-separated authority yields the empty string. -/
def urlNetloc (u : String) : String :=
  match afterSchemeSep u.data with
  | some rest => String.mk (rest.takeWhile (fun c => c ≠ '/' && c ≠ '?' && c ≠ '#'))
  | none => ""

/-- Embeds the property-payload construction of
`PocketToNotionImporter.create_notion_page` (source lines 220-282): the four
required properties are always present, and each optional property is added
only when its name is in the cached `available_properties` (with the extra
data-presence guards on `AddedDate` and `Tags`). -/
def notionProperties (available : List String) (article : Article) :
    List (String × PropValue) :=
  let base : List (String × PropValue) :=
    [ ("Title", .title (pySliceTo article.title 100))
    , ("URL", .url article.url)
    , ("Domain", .richText (urlNetloc article.url))
    , ("Source", .select "Pocket") ]
  let base := if available.contains "Status" then
      base ++ [("Status", .select (pyCapitalize article.status))] else base
  let base := if available.contains "ReadingStatus" then
      base ++ [("ReadingStatus", .select "未読")] else base
  let base := match article.added_date with
    | some d => if available.contains "AddedDate" then
        base ++ [("AddedDate", .date d)] else base
    | none => base
  if ¬ article.tags.isEmpty ∧ available.contains "Tags" then
    base ++ [("Tags", .multiSelect ((article.tags.take 10).map (fun tag => pySliceTo tag 100)))]
  else base

/-- Outcome of one `notion.pages.create` call, the oracle for the remote
side effect: success, or one of the three exception kinds the code catches. -/
inductive PublishOutcome where
  | ok
  | apiError
  | timeout
  | otherError
deriving Repr, DecidableEq

/-- Embeds `PocketToNotionImporter.create_notion_page`
(source lines 195-310). Returns the property payload submitted with the
page-creation request, the boolean result, and the updated instance state:
on success `imported_count` is incremented, on any of the three caught
exception kinds `error_count` is incremented, and nothing is ever
propagated. -/
def create_notion_page (st : ImporterState) (article : Article)
    (outcome : PublishOutcome) : List (String × PropValue) × Bool × ImporterState :=
  let payload := notionProperties st.available_properties article
  match outcome with
  | .ok => (payload, true, { st with imported_count := st.imported_count + 1 })
  | .apiError => (payload, false, { st with error_count := st.error_count + 1 })
  | .timeout => (payload, false, { st with error_count := st.error_count + 1 })
  | .otherError => (payload, false, { st with error_count := st.error_count + 1 })

/-- Embeds the publishing loop of `import_articles` (source lines 429-436):
each article is passed to `create_notion_page` in order, paired with the
oracle outcome of its remote call; the inter-call sleep has no effect on
state. -/
def publishLoop (st : ImporterState) :
    List Article → List PublishOutcome → ImporterState
  | [], _ => st
  | _ :: _, [] => st
  | a :: arts, o :: os => publishLoop (create_notion_page st a o).2.2 arts os

/-- Product of a finite binary64 with the exact small integer `k` (here
100), correctly rounded: CPython converts the int operand to a double
exactly and rounds the exact product. -/
def mulDouble (a : Double64) (k : Nat) : Double64 :=
  match a with
  | .fin m e =>
    if 0 ≤ e then roundRatToDouble (m * k * 2 ^ e.toNat) 1
    else roundRatToDouble (m * k) (2 ^ (-e).toNat)
  | .inf => .inf

/-- Renders a nonnegative finite binary64 `m * 2 ^ e` the way Python's
`:.1f` does: the exact decimal value of the double is rounded to one
fractional digit, ties to even. -/
def formatDot1 (m : Nat) (e : Int) : String :=
  let x10 :=
    if 0 ≤ e then m * 10 * 2 ^ e.toNat
    else
      let d := 2 ^ (-e).toNat
      let q := m * 10 / d
      let r := m * 10 % d
      if r * 2 < d then q
      else if d < r * 2 then q + 1
      else if q % 2 = 0 then q else q + 1
  toString (x10 / 10) ++ "." ++ toString (x10 % 10)

/-- Embeds the success-rate rendering
`f"{(imported_count / total) * 100:.1f}%"` of `import_articles`
(source lines 439-445) through the binary64 pipeline: CPython's true
division of integers rounds the exact ratio to the nearest double, the
multiplication by 100 rounds again, and the format rounds the exact
decimal value of the resulting double to one decimal place, ties to
even. -/
def formatRate (i n : Nat) : String :=
  match mulDouble (roundRatToDouble i n) 100 with
  | .fin m e => formatDot1 m e ++ "%"
  | .inf => "inf%"

/-- Result dictionary of `import_articles`: either one of the early-exit
failure dictionaries (`success: False` plus an error message), or the
completed-run dictionary (`success: True` plus the four statistics). -/
inductive ImportResult where
  | failure (error : String)
  | completed (total_articles imported errors : Nat) (success_rate : String)
deriving Repr, DecidableEq

/-- The `success` entry of the result dictionary. -/
def ImportResult.success : ImportResult → Bool
  | .failure _ => false
  | .completed _ _ _ _ => true

/-- Embeds `PocketToNotionImporter.import_articles`
(source lines 372-449). Oracles stand for the external effects: `retrieve`
is the schema-retrieval outcome consumed by `check_database_properties`;
`fileRows` is the outcome of the extract/decode stage (source lines
402-424), either an error message (unsupported suffix, missing/corrupt/empty
file — all of which produce a `success: False` dictionary) or the
concatenated data rows of all extracted CSV files, which `parse_pocket_csv`
then normalizes (an exception escaping the parser is caught at lines
418-420 and likewise yields a failure dictionary); `outcomes` are the
per-article remote call results. The delay resolution only feeds
`time.sleep` and is omitted. Returns the result dictionary and the final
instance state. -/
def import_articles (st : ImporterState) (retrieve : Option (List String))
    (fileRows : Except String (List Row)) (outcomes : List PublishOutcome) :
    ImportResult × ImporterState :=
  match check_database_properties st retrieve with
  | ((false, _), st) => (.failure "データベースプロパティの確認に失敗しました", st)
  | ((true, _), st) =>
    match fileRows with
    | .error e => (.failure ("ファイルの解析に失敗しました: " ++ e), st)
    | .ok rows =>
      match parse_pocket_csv rows with
      | none => (.failure "ファイルの解析に失敗しました", st)
      | some all_articles =>
        if all_articles.isEmpty then
          (.failure "記事が見つかりませんでした", st)
        else
          let st := publishLoop st all_articles outcomes
          let success_rate := formatRate st.imported_count all_articles.length
          (.completed all_articles.length st.imported_count st.error_count success_rate, st)

/-! Helper lemmas about the embedded pipeline. -/

lemma applyTimestamp_keeps {row : Row} {b a1 : Article}
    (h : applyTimestamp row b = some a1) :
    a1.title = b.title ∧ a1.url = b.url ∧ a1.tags = b.tags ∧ a1.status = b.status := by
  unfold applyTimestamp at h
  split at h
  · injection h with h
    subst h
    exact ⟨rfl, rfl, rfl, rfl⟩
  · split at h
    · injection h with h
      subst h
      exact ⟨rfl, rfl, rfl, rfl⟩
    · cases h
    · split at h
      · injection h with h
        subst h
        exact ⟨rfl, rfl, rfl, rfl⟩
      · injection h with h
        subst h
        exact ⟨rfl, rfl, rfl, rfl⟩
      · cases h

lemma applyTags_keeps (row : Row) (a : Article) :
    (applyTags row a).title = a.title ∧ (applyTags row a).url = a.url ∧
    (applyTags row a).added_date = a.added_date ∧
    (applyTags row a).time_added = a.time_added ∧
    (applyTags row a).status = a.status := by
  unfold applyTags
  split
  · exact ⟨rfl, rfl, rfl, rfl, rfl⟩
  · split
    · exact ⟨rfl, rfl, rfl, rfl, rfl⟩
    · dsimp only
      split
      · exact ⟨rfl, rfl, rfl, rfl, rfl⟩
      · split <;> exact ⟨rfl, rfl, rfl, rfl, rfl⟩

lemma parseRow_skip_iff (row : Row) : parseRow row = RowStep.skip ↔ row.url = Cell.nan := by
  unfold parseRow
  cases row.url with
  | absent =>
    simp only [Cell.get, PyVal.isna, Bool.false_eq_true, if_false]
    cases applyTimestamp row (baseArticle row) <;> simp
  | nan => simp [Cell.get, PyVal.isna]
  | val s =>
    simp only [Cell.get, PyVal.isna, Bool.false_eq_true, if_false]
    cases applyTimestamp row (baseArticle row) <;> simp

lemma parseRow_keep_inv {row : Row} {a : Article} (h : parseRow row = RowStep.keep a) :
    row.url ≠ Cell.nan ∧
    ∃ a1, applyTimestamp row (baseArticle row) = some a1 ∧ a = applyTags row a1 := by
  unfold parseRow at h
  by_cases hu : (row.url.get "").isna
  · rw [if_pos hu] at h
    cases h
  · rw [if_neg hu] at h
    refine ⟨?_, ?_⟩
    · intro hnan
      apply hu
      rw [hnan]
      rfl
    · cases hat : applyTimestamp row (baseArticle row) with
      | none => rw [hat] at h; cases h
      | some a1 =>
        rw [hat] at h
        injection h with h
        exact ⟨a1, rfl, h.symm⟩

lemma parseRow_fields {row : Row} {a : Article} (h : parseRow row = RowStep.keep a) :
    a.title = (baseArticle row).title ∧ a.url = (baseArticle row).url ∧
    a.status = (baseArticle row).status ∧
    ∃ a1, applyTimestamp row (baseArticle row) = some a1 ∧
      a.added_date = a1.added_date ∧ a.time_added = a1.time_added ∧
      a.tags = (applyTags row a1).tags := by
  obtain ⟨-, a1, ha1, rfl⟩ := parseRow_keep_inv h
  obtain ⟨ht1, hu1, htg1, hs1⟩ := applyTimestamp_keeps ha1
  obtain ⟨ht2, hu2, hd2, hta2, hs2⟩ := applyTags_keeps row a1
  exact ⟨ht2.trans ht1, hu2.trans hu1, hs2.trans hs1, a1, ha1, hd2, hta2, rfl⟩

lemma parse_mem :
    ∀ {rows : List Row} {arts : List Article}, parse_pocket_csv rows = some arts →
      ∀ a ∈ arts, ∃ r ∈ rows, parseRow r = RowStep.keep a := by
  intro rows
  induction rows with
  | nil =>
    intro arts h a ha
    unfold parse_pocket_csv at h
    injection h with h
    subst h
    cases ha
  | cons r rs ih =>
    intro arts h a ha
    unfold parse_pocket_csv at h
    cases hr : parseRow r with
    | skip =>
      rw [hr] at h
      obtain ⟨r1, hm, hk⟩ := ih h a ha
      exact ⟨r1, List.mem_cons_of_mem r hm, hk⟩
    | keep b =>
      rw [hr] at h
      cases hps : parse_pocket_csv rs with
      | none => rw [hps] at h; cases h
      | some l =>
        rw [hps] at h
        injection h with h
        subst h
        rcases List.mem_cons.mp ha with hab | hal
        · subst hab
          exact ⟨r, List.mem_cons_self r rs, hr⟩
        · obtain ⟨r1, hm, hk⟩ := ih hps a hal
          exact ⟨r1, List.mem_cons_of_mem r hm, hk⟩
    | raise =>
      rw [hr] at h
      cases h

lemma baseArticle_url_val (row : Row) (s : String) (h : row.url = Cell.val s) :
    (baseArticle row).url = s := by
  simp [baseArticle, h, Cell.get, PyVal.pyStr]

lemma baseArticle_status (row : Row) :
    (baseArticle row).status = (row.status.get "unread").pyStr := rfl

lemma baseArticle_tags (row : Row) : (baseArticle row).tags = [] := rfl

lemma baseArticle_title_ne (row : Row) (s : String) (h : row.url = Cell.val s)
    (hs : s ≠ "") : (baseArticle row).title ≠ "" := by
  unfold baseArticle
  cases ht : row.title with
  | absent => simp [Cell.get, h, PyVal.isna, PyVal.pyStr, hs]
  | nan => simp [Cell.get, h, PyVal.isna, PyVal.pyStr, hs]
  | val t =>
    by_cases hte : t = ""
    · simp [Cell.get, h, hte, PyVal.isna, PyVal.pyStr, hs]
    · simp [Cell.get, h, hte, PyVal.isna, PyVal.pyStr, hs]

lemma baseArticle_title_empty (row : Row)
    (h : row.title = Cell.absent ∨ row.title = Cell.nan ∨ row.title = Cell.val "") :
    (baseArticle row).title = (baseArticle row).url := by
  unfold baseArticle
  rcases h with h | h | h <;> simp [h, Cell.get, PyVal.isna]

lemma applyTimestamp_parse_ok (row : Row) (b : Article) (s : String) (t : Int)
    (hs : row.time_added.getOpt = PyVal.str s) (hp : pyIntFloat s = PyIntFloatOutcome.val t)
    (hok : fromtimestamp t = FtOutcome.ok) :
    applyTimestamp row b =
      some { b with added_date := some t, time_added := some (toString t) } := by
  unfold applyTimestamp
  rw [hs]
  dsimp only
  rw [hp]
  dsimp only
  rw [hok]

lemma applyTimestamp_parse_caught (row : Row) (b : Article) (s : String) (t : Int)
    (hs : row.time_added.getOpt = PyVal.str s) (hp : pyIntFloat s = PyIntFloatOutcome.val t)
    (hc : fromtimestamp t = FtOutcome.caughtError) :
    applyTimestamp row b = some b := by
  unfold applyTimestamp
  rw [hs]
  dsimp only
  rw [hp]
  dsimp only
  rw [hc]

lemma applyTags_val (row : Row) (a : Article) (s : String)
    (h : row.tags = Cell.val s) (hs : s ≠ "") :
    (applyTags row a).tags =
      (if pyStrip s = "" then a.tags
       else if pyContainsChar (pyStrip s) ',' then
         ((pySplit (pyStrip s) ',').map pyStrip).filter (· ≠ "")
       else [pyStrip s]) := by
  unfold applyTags Cell.getOpt
  rw [h]
  simp only [hs, if_false, ite_false]
  split_ifs <;> simp_all

/-! Concrete fixtures used by the witnesses and counterexamples below. -/

/-- A sample article URL. -/
def pocketUrl : String := "http://example.com/a"

/-- Row whose URL cell is the NaN a CSV reader stores for an empty or
missing URL field. -/
def rowUrlMissing : Row :=
  { title := .val "Kept title", url := .nan, tags := .nan, time_added := .nan, status := .absent }

/-- Ordinary row with title and URL and nothing else. -/
def rowPlain : Row :=
  { title := .val "A title", url := .val pocketUrl, tags := .nan, time_added := .nan,
    status := .absent }

/-- Article produced from `rowPlain`. -/
def articlePlain : Article :=
  { title := "A title", url := pocketUrl, tags := [], added_date := none, time_added := none,
    status := "unread" }

/-- Row with an empty (NaN) title cell and an explicit status. -/
def rowNoTitle : Row :=
  { title := .nan, url := .val pocketUrl, tags := .nan, time_added := .nan,
    status := .val "archive" }

/-- Article produced from `rowNoTitle`. -/
def articleNoTitle : Article :=
  { title := pocketUrl, url := pocketUrl, tags := [], added_date := none, time_added := none,
    status := "archive" }

/-- Row whose tags field is a single space: non-empty, without a comma, and
whitespace-only. -/
def rowSpaceTags : Row :=
  { title := .val "T", url := .val pocketUrl, tags := .val " ", time_added := .nan,
    status := .val "unread" }

/-- Article produced from `rowSpaceTags`. -/
def articleSpaceTags : Article :=
  { title := "T", url := pocketUrl, tags := [], added_date := none, time_added := none,
    status := "unread" }

/-- Row with a comma-separated tags field containing padding and an empty
fragment. -/
def rowCommaTags : Row :=
  { title := .val "T", url := .val pocketUrl, tags := .val " a, b ,, c ", time_added := .nan,
    status := .val "unread" }

/-- Row with a single padded tag and no comma. -/
def rowOneTag : Row :=
  { title := .val "T", url := .val pocketUrl, tags := .val " news ", time_added := .nan,
    status := .val "unread" }

/-- Row whose timestamp field is a fractional epoch value. -/
def rowFracTimestamp : Row :=
  { title := .val "T", url := .val pocketUrl, tags := .nan, time_added := .val "5.5",
    status := .val "unread" }

/-- Article produced from `rowFracTimestamp`. -/
def articleFrac : Article :=
  { title := "T", url := pocketUrl, tags := [], added_date := some 5, time_added := some "5",
    status := "unread" }

/-- Row whose timestamp field is the text `inf`, which `float` converts to
an infinity. -/
def rowInfTimestamp : Row :=
  { title := .val "T", url := .val pocketUrl, tags := .nan, time_added := .val "inf",
    status := .val "unread" }

/-- Row whose timestamp field is a finite epoch far beyond the supported
calendar range (year about 31.7 million). -/
def rowHugeTimestamp : Row :=
  { title := .val "T", url := .val pocketUrl, tags := .nan,
    time_added := .val "1000000000000000", status := .val "unread" }

/-- Article produced from `rowHugeTimestamp`: the out-of-range
`fromtimestamp` call raises a caught error, so both date fields stay
unset. -/
def articleHugeTs : Article :=
  { title := "T", url := pocketUrl, tags := [], added_date := none, time_added := none,
    status := "unread" }

/-- Row whose status cell is the NaN stored for an empty status field. -/
def rowNanStatus : Row :=
  { title := .val "T", url := .val pocketUrl, tags := .nan, time_added := .nan, status := .nan }

/-- Article produced from `rowNanStatus`: its status is the string
rendering of the float NaN. -/
def articleNanStatus : Article :=
  { title := "T", url := pocketUrl, tags := [], added_date := none, time_added := none,
    status := "nan" }

/-! Claim theorems for the Record Parser. -/

/-- C1: over rows whose `url` column exists in the file and whose empty URL
cells are stored as NaN (which is how the external CSV reader hands rows to
`parse_pocket_csv`, its default NA handling turning empty fields into NaN),
every row whose URL field is empty/missing is excluded from the returned
article list, and every article the parser returns — hence every article
`import_articles` passes to the publisher — has a non-empty title and a
non-empty url. -/
theorem C1_url_filter_invariant (rows : List Row)
    (hurl : ∀ r ∈ rows, r.url ≠ Cell.absent ∧ r.url ≠ Cell.val "") :
    (∀ r ∈ rows, r.url = Cell.nan → parseRow r = RowStep.skip) ∧
    ∀ arts, parse_pocket_csv rows = some arts →
      ∀ a ∈ arts, a.title ≠ "" ∧ a.url ≠ "" := by
  constructor
  · intro r _ h
    exact (parseRow_skip_iff r).mpr h
  · intro arts hpcsv a ha
    obtain ⟨r, hr, hpa⟩ := parse_mem hpcsv a ha
    obtain ⟨habs, hval⟩ := hurl r hr
    obtain ⟨hnan, -⟩ := parseRow_keep_inv hpa
    obtain ⟨s, hs⟩ : ∃ s, r.url = Cell.val s := by
      cases hu : r.url with
      | absent => exact absurd hu habs
      | nan => exact absurd hu hnan
      | val s => exact ⟨s, rfl⟩
    have hsne : s ≠ "" := fun he => hval (he ▸ hs)
    obtain ⟨ht, hu, -, -⟩ := parseRow_fields hpa
    refine ⟨?_, ?_⟩
    · rw [ht]
      exact baseArticle_title_ne r s hs hsne
    · rw [hu, baseArticle_url_val r s hs]
      exact hsne

/-- Witness for C1 at a two-row file: the URL-less row is dropped and the
surviving article has non-empty title and url. -/
theorem C1_witness :
    parseRow rowUrlMissing = RowStep.skip ∧
    parse_pocket_csv [rowUrlMissing, rowPlain] = some [articlePlain] ∧
    articlePlain.title ≠ "" ∧ articlePlain.url ≠ "" := by
  have h := C1_url_filter_invariant [rowUrlMissing, rowPlain] (by decide)
  refine ⟨h.1 rowUrlMissing (by decide) (by decide), by decide, ?_, ?_⟩
  · exact (h.2 [articlePlain] (by decide) articlePlain (by decide)).1
  · exact (h.2 [articlePlain] (by decide) articlePlain (by decide)).2

/-- C5 counterexample: a tags field consisting of one space is non-empty
and contains no comma, so the claim promises the single-element sequence
holding the trimmed field (the empty string); the code instead produces no
tags at all. -/
theorem C5_counterexample :
    rowSpaceTags.tags = Cell.val " " ∧ pyContainsChar (pyStrip " ") ',' = false ∧
    parse_pocket_csv [rowSpaceTags] = some [articleSpaceTags] ∧
    articleSpaceTags.tags = [] ∧ ([] : List String) ≠ [pyStrip " "] := by decide

/-- C5 (amended): for a row with a non-empty tags field, if the stripped
field contains a comma the tags are the comma-split, individually stripped,
non-empty fragments in order; if it contains no comma the tags are the
one-element sequence of the stripped field when that is non-empty, and no
tags result when the field is whitespace-only. -/
theorem C5_tag_splitting (r : Row) (s : String) (a : Article)
    (hcell : r.tags = Cell.val s) (hs : s ≠ "") (h : parseRow r = RowStep.keep a) :
    (pyContainsChar (pyStrip s) ',' = true →
       a.tags = ((pySplit (pyStrip s) ',').map pyStrip).filter (· ≠ "")) ∧
    (pyContainsChar (pyStrip s) ',' = false → pyStrip s ≠ "" → a.tags = [pyStrip s]) ∧
    (pyStrip s = "" → a.tags = []) := by
  obtain ⟨-, -, -, a1, ha1, -, -, htg⟩ := parseRow_fields h
  have hempty : a1.tags = [] :=
    ((applyTimestamp_keeps ha1).2.2.1).trans (baseArticle_tags r)
  rw [htg, applyTags_val r a1 s hcell hs]
  refine ⟨?_, ?_, ?_⟩
  · intro hc
    have htr : pyStrip s ≠ "" := by
      intro he
      rw [he] at hc
      exact absurd hc (by decide)
    simp [htr, hc]
  · intro hc htr
    simp [htr, hc]
  · intro htr
    simp [htr, hempty]

/-- Witness for the amended C5 at a comma-separated and at a single-tag
field. -/
theorem C5_witness :
    parse_pocket_csv [rowCommaTags] =
      some [{ articlePlain with title := "T", tags := ["a", "b", "c"], status := "unread" }] ∧
    (((pySplit (pyStrip " a, b ,, c ") ',').map pyStrip).filter (· ≠ "") = ["a", "b", "c"]) ∧
    (∀ a, parseRow rowCommaTags = RowStep.keep a →
      a.tags = ((pySplit (pyStrip " a, b ,, c ") ',').map pyStrip).filter (· ≠ "")) ∧
    (∀ a, parseRow rowOneTag = RowStep.keep a → a.tags = [pyStrip " news "]) := by
  refine ⟨by decide, by decide, ?_, ?_⟩
  · intro a ha
    exact (C5_tag_splitting rowCommaTags " a, b ,, c " a (by decide) (by decide) ha).1 (by decide)
  · intro a ha
    exact ((C5_tag_splitting rowOneTag " news " a (by decide) (by decide) ha).2.1
      (by decide) (by decide))

/-- C6 (code bug): the claim — like the spec's "parsing never aborts the
row" — states the evident intent of the timestamp handler, but the tuple
caught at source line 165 is `(ValueError, TypeError, OSError)` only: a
timestamp field of `inf` makes `int(float(v))` raise `OverflowError`,
which escapes through the re-raising outer handler, so `parse_pocket_csv`
aborts and every row of the file is lost, instead of the one row being
kept with both date fields unset. This theorem evaluates the embedded code
at the failing input. -/
theorem C6_timestamp_crash :
    pyIntFloat "inf" = PyIntFloatOutcome.overflowError ∧
    rowInfTimestamp.time_added = Cell.val "inf" ∧
    parseRow rowInfTimestamp = RowStep.raise ∧
    parse_pocket_csv [rowPlain, rowInfTimestamp] = none := by decide

/-- C7 counterexample: the raw timestamp field `"5.5"` parses successfully
(epoch 5.5 seconds, truncated to 5), but the stored `time_added` is the
normalized string `"5"`, not a mirror of the raw field `"5.5"`. -/
theorem C7_counterexample :
    rowFracTimestamp.time_added = Cell.val "5.5" ∧
    pyIntFloat "5.5" = PyIntFloatOutcome.val 5 ∧
    parse_pocket_csv [rowFracTimestamp] = some [articleFrac] ∧
    articleFrac.time_added = some "5" ∧ (some "5" : Option String) ≠ some "5.5" := by decide

/-- C7 (amended): for a row whose timestamp field `int(float(·))` converts
to an integer `t`, when `datetime.fromtimestamp` accepts `t` the article
stores `added_date` derived from `t` and `time_added` as the canonical
decimal string of `t` — which coincides with the raw field only when the
raw field is already that canonical integer string; when `t` lies outside
the supported calendar range, the resulting `ValueError`/`OSError` is
caught and both fields stay unset. -/
theorem C7_timestamp_normalized (r : Row) (s : String) (t : Int) (a : Article)
    (hcell : r.time_added = Cell.val s) (hp : pyIntFloat s = PyIntFloatOutcome.val t)
    (h : parseRow r = RowStep.keep a) :
    (fromtimestamp t = FtOutcome.ok →
       a.added_date = some t ∧ a.time_added = some (toString t)) ∧
    (fromtimestamp t = FtOutcome.caughtError →
       a.added_date = none ∧ a.time_added = none) := by
  obtain ⟨-, -, -, a1, ha1, hd, hta, -⟩ := parseRow_fields h
  have hopt : r.time_added.getOpt = PyVal.str s := by rw [hcell]; rfl
  constructor
  · intro hok
    rw [applyTimestamp_parse_ok r (baseArticle r) s t hopt hp hok] at ha1
    injection ha1 with ha1
    subst ha1
    exact ⟨hd.trans rfl, hta.trans rfl⟩
  · intro hc
    rw [applyTimestamp_parse_caught r (baseArticle r) s t hopt hp hc] at ha1
    injection ha1 with ha1
    subst ha1
    exact ⟨hd.trans rfl, hta.trans rfl⟩

/-- Witness for the amended C7, at the in-range fractional timestamp
`"5.5"` and at the finite but out-of-range epoch `10^15`. -/
theorem C7_witness :
    (articleFrac.added_date = some 5 ∧ articleFrac.time_added = some (toString (5 : Int))) ∧
    (articleHugeTs.added_date = none ∧ articleHugeTs.time_added = none) :=
  ⟨(C7_timestamp_normalized rowFracTimestamp "5.5" 5 articleFrac
      (by decide) (by decide) (by decide)).1 (by decide),
   (C7_timestamp_normalized rowHugeTimestamp "1000000000000000" 1000000000000000
      articleHugeTs (by decide) (by decide) (by decide)).2 (by decide)⟩

/-- C8 counterexample: a row whose status cell holds the NaN stored for an
empty status field produces the status string `"nan"` (Python `str` of the
float NaN), which is neither the verbatim field content nor the claimed
default `"unread"`. -/
theorem C8_counterexample :
    rowNanStatus.status = Cell.nan ∧
    parse_pocket_csv [rowNanStatus] = some [articleNanStatus] ∧
    articleNanStatus.status = "nan" ∧ articleNanStatus.status ≠ "unread" ∧
    articleNanStatus.status ≠ "" := by decide

/-- C8 (amended): the article's status is the row's status value copied
verbatim when a string value is present, the default `"unread"` only when
the status column is absent from the file, and the literal string `"nan"`
when the cell holds the NaN stored for an empty status field. -/
theorem C8_status (r : Row) (a : Article) (h : parseRow r = RowStep.keep a) :
    (∀ s, r.status = Cell.val s → a.status = s) ∧
    (r.status = Cell.absent → a.status = "unread") ∧
    (r.status = Cell.nan → a.status = "nan") := by
  obtain ⟨-, -, hs, -⟩ := parseRow_fields h
  rw [hs, baseArticle_status]
  refine ⟨?_, ?_, ?_⟩
  · intro s hstat
    rw [hstat]
    rfl
  · intro hstat
    rw [hstat]
    rfl
  · intro hstat
    rw [hstat]
    rfl

/-- Witness for the amended C8: verbatim copy, column-absent default, and
NaN cell. -/
theorem C8_witness :
    articleNoTitle.status = "archive" ∧ articlePlain.status = "unread" ∧
    articleNanStatus.status = "nan" :=
  ⟨(C8_status rowNoTitle articleNoTitle (by decide)).1 "archive" (by decide),
   (C8_status rowPlain articlePlain (by decide)).2.1 (by decide),
   (C8_status rowNanStatus articleNanStatus (by decide)).2.2 (by decide)⟩

/-- C9: a surviving row whose title field is empty or missing yields an
article whose title equals its URL. -/
theorem C9_title_fallback (r : Row) (a : Article)
    (ht : r.title = Cell.absent ∨ r.title = Cell.nan ∨ r.title = Cell.val "")
    (h : parseRow r = RowStep.keep a) : a.title = a.url := by
  obtain ⟨h1, h2, -, -⟩ := parseRow_fields h
  rw [h1, h2]
  exact baseArticle_title_empty r ht

/-- Witness for C9 at a row with an empty title cell. -/
theorem C9_witness :
    parse_pocket_csv [rowNoTitle] = some [articleNoTitle] ∧
    articleNoTitle.title = articleNoTitle.url :=
  ⟨by decide, C9_title_fallback rowNoTitle articleNoTitle (Or.inr (Or.inl (by decide)))
    (by decide)⟩

/-! Support lemmas for the Schema Prober, Page Publisher and Orchestrator. -/

lemma pySliceTo_length (s : String) (n : Nat) :
    (pySliceTo s n).length = min n s.length := by
  show (s.data.take n).length = min n s.length
  rw [List.length_take n s.data]
  rfl

lemma check_eq (st : ImporterState) (props : List String) :
    check_database_properties st (some props) =
      (((required_props.filter (fun q => decide (q ∉ props))).isEmpty,
        required_props.filter (fun q => decide (q ∉ props))),
       { st with available_properties := props }) := rfl

lemma import_articles_checkfail (st : ImporterState) (props : List String)
    (fileRows : Except String (List Row)) (outcomes : List PublishOutcome)
    (hi : (required_props.filter (fun q => decide (q ∉ props))).isEmpty = false) :
    import_articles st (some props) fileRows outcomes =
      (.failure "データベースプロパティの確認に失敗しました",
       { st with available_properties := props }) := by
  unfold import_articles
  rw [check_eq, hi]

lemma import_articles_run (st : ImporterState) (props : List String) (rows : List Row)
    (arts : List Article) (outcomes : List PublishOutcome)
    (hfil : required_props.filter (fun q => decide (q ∉ props)) = [])
    (hparse : parse_pocket_csv rows = some arts)
    (hne : arts.isEmpty = false) :
    import_articles st (some props) (.ok rows) outcomes =
      (ImportResult.completed arts.length
        (publishLoop { st with available_properties := props } arts outcomes).imported_count
        (publishLoop { st with available_properties := props } arts outcomes).error_count
        (formatRate
          (publishLoop { st with available_properties := props } arts outcomes).imported_count
          arts.length),
       publishLoop { st with available_properties := props } arts outcomes) := by
  unfold import_articles
  rw [check_eq, hfil]
  dsimp only
  rw [hparse]
  dsimp only
  rw [hne]
  rfl

lemma publishLoop_counts (arts : List Article) (os : List PublishOutcome)
    (st : ImporterState) (h : arts.length = os.length) :
    (publishLoop st arts os).imported_count =
      st.imported_count + os.countP (fun o => o == PublishOutcome.ok) ∧
    (publishLoop st arts os).error_count =
      st.error_count + os.countP (fun o => o != PublishOutcome.ok) ∧
    (publishLoop st arts os).available_properties = st.available_properties := by
  induction arts generalizing os st with
  | nil =>
    cases os with
    | nil => simp [publishLoop]
    | cons o os => simp at h
  | cons a arts ih =>
    cases os with
    | nil => simp at h
    | cons o os =>
      have h' : arts.length = os.length := by simpa using h
      cases o with
      | ok =>
        obtain ⟨h1, h2, h3⟩ :=
          ih os { st with imported_count := st.imported_count + 1 } h'
        refine ⟨?_, ?_, ?_⟩ <;>
          (simp [publishLoop, create_notion_page, List.countP_cons, h1, h2, h3]; try omega)
      | apiError =>
        obtain ⟨h1, h2, h3⟩ :=
          ih os { st with error_count := st.error_count + 1 } h'
        refine ⟨?_, ?_, ?_⟩ <;>
          (simp [publishLoop, create_notion_page, List.countP_cons, h1, h2, h3]; try omega)
      | timeout =>
        obtain ⟨h1, h2, h3⟩ :=
          ih os { st with error_count := st.error_count + 1 } h'
        refine ⟨?_, ?_, ?_⟩ <;>
          (simp [publishLoop, create_notion_page, List.countP_cons, h1, h2, h3]; try omega)
      | otherError =>
        obtain ⟨h1, h2, h3⟩ :=
          ih os { st with error_count := st.error_count + 1 } h'
        refine ⟨?_, ?_, ?_⟩ <;>
          (simp [publishLoop, create_notion_page, List.countP_cons, h1, h2, h3]; try omega)

lemma countP_ok_split (os : List PublishOutcome) :
    os.countP (fun o => o == PublishOutcome.ok) +
      os.countP (fun o => o != PublishOutcome.ok) = os.length := by
  induction os with
  | nil => simp
  | cons o os ih =>
    cases o <;> simp [List.countP_cons] <;> omega

/-- The optional tail of the payload of `notionProperties`: the entries
appended after the four required properties, under the same guards. -/
def optTailPayload (available : List String) (article : Article) :
    List (String × PropValue) :=
  (if available.contains "Status" then
     [("Status", PropValue.select (pyCapitalize article.status))] else []) ++
  (if available.contains "ReadingStatus" then
     [("ReadingStatus", PropValue.select "未読")] else []) ++
  (match article.added_date with
   | some d => if available.contains "AddedDate" then [("AddedDate", PropValue.date d)] else []
   | none => []) ++
  (if ¬ article.tags.isEmpty ∧ available.contains "Tags" then
     [("Tags", PropValue.multiSelect ((article.tags.take 10).map (fun tag => pySliceTo tag 100)))]
   else [])

lemma notionProperties_decomp (av : List String) (a : Article) :
    notionProperties av a =
      ("Title", PropValue.title (pySliceTo a.title 100)) ::
      ("URL", PropValue.url a.url) ::
      ("Domain", PropValue.richText (urlNetloc a.url)) ::
      ("Source", PropValue.select "Pocket") :: optTailPayload av a := by
  unfold notionProperties optTailPayload
  rcases hd : a.added_date with _ | d <;>
    by_cases h1 : "Status" ∈ av <;>
    by_cases h2 : "ReadingStatus" ∈ av <;>
    by_cases h3 : "AddedDate" ∈ av <;>
    by_cases h4 : a.tags = [] <;>
    by_cases h5 : "Tags" ∈ av <;>
    simp [h1, h2, h3, h4, h5, hd]

lemma optTail_tags (av : List String) (a : Article) (ts : List String) :
    ("Tags", PropValue.multiSelect ts) ∈ optTailPayload av a ↔
      (a.tags ≠ [] ∧ "Tags" ∈ av) ∧
      ts = (a.tags.take 10).map (fun tag => pySliceTo tag 100) := by
  unfold optTailPayload
  rcases hd : a.added_date with _ | d <;>
    by_cases h1 : "Status" ∈ av <;>
    by_cases h2 : "ReadingStatus" ∈ av <;>
    by_cases h3 : "AddedDate" ∈ av <;>
    by_cases h4 : a.tags = [] <;>
    by_cases h5 : "Tags" ∈ av <;>
    simp [h1, h2, h3, h4, h5, hd]

/-! Fixtures for the Notion-side claims. -/

/-- A database schema containing all required and optional properties. -/
def fullProps : List String := required_props ++ optional_props

/-- A database schema missing the required property `"Domain"`. -/
def propsNoDomain : List String := ["Title", "URL", "Source", "Status"]

/-- An importer state with non-zero counters left by earlier activity. -/
def stPrev : ImporterState :=
  { imported_count := 3, error_count := 2, available_properties := [] }

/-- A 150-character title. -/
def longTitle : String := String.mk (List.replicate 150 'x')

/-- Twelve tags. -/
def twelveTags : List String :=
  ["t01", "t02", "t03", "t04", "t05", "t06", "t07", "t08", "t09", "t10", "t11", "t12"]

/-- Article with a 150-character title and 12 tags. -/
def articleManyTags : Article :=
  { title := longTitle, url := pocketUrl, tags := twelveTags, added_date := none,
    time_added := none, status := "unread" }

/-- Helper building a plain row with a given title and URL. -/
def mkRow (t u : String) : Row :=
  { title := .val t, url := .val u, tags := .nan, time_added := .nan, status := .absent }

/-- A five-row file. -/
def rows5 : List Row :=
  [mkRow "T1" "u1", mkRow "T2" "u2", mkRow "T3" "u3", mkRow "T4" "u4", mkRow "T5" "u5"]

/-- Helper building the article a plain `mkRow` row parses to. -/
def mkArticle (t u : String) : Article :=
  { title := t, url := u, tags := [], added_date := none, time_added := none,
    status := "unread" }

/-- The articles parsed from `rows5`. -/
def articles5 : List Article :=
  [mkArticle "T1" "u1", mkArticle "T2" "u2", mkArticle "T3" "u3", mkArticle "T4" "u4",
   mkArticle "T5" "u5"]

/-- Five publish outcomes, exactly one of which fails. -/
def outs5 : List PublishOutcome := [.ok, .ok, .apiError, .ok, .ok]

/-- A three-row file. -/
def rows3 : List Row := [mkRow "T1" "u1", mkRow "T2" "u2", mkRow "T3" "u3"]

/-! Claim theorems for the Schema Prober, Page Publisher and Orchestrator. -/

/-- C2: if any required property among Title, URL, Domain, Source is absent
from the retrieved schema, `check_database_properties` returns `False` with
a diagnostic naming exactly the missing required properties, and
`import_articles` then returns a failure result with both counters
unchanged (no page-creation call is reached). -/
theorem C2_missing_required_property (st : ImporterState) (props : List String)
    (p : String) (hp : p ∈ required_props) (hmiss : p ∉ props)
    (fileRows : Except String (List Row)) (outcomes : List PublishOutcome) :
    (check_database_properties st (some props)).1.1 = false ∧
    (∀ q ∈ required_props, q ∉ props →
       q ∈ (check_database_properties st (some props)).1.2) ∧
    (∀ q ∈ (check_database_properties st (some props)).1.2,
       q ∈ required_props ∧ q ∉ props) ∧
    (import_articles st (some props) fileRows outcomes).1.success = false ∧
    (import_articles st (some props) fileRows outcomes).2.imported_count =
      st.imported_count ∧
    (import_articles st (some props) fileRows outcomes).2.error_count = st.error_count := by
  have hpm : p ∈ required_props.filter (fun q => decide (q ∉ props)) :=
    List.mem_filter.mpr ⟨hp, by simp [hmiss]⟩
  have hi : (required_props.filter (fun q => decide (q ∉ props))).isEmpty = false := by
    cases hm : required_props.filter (fun q => decide (q ∉ props)) with
    | nil => rw [hm] at hpm; cases hpm
    | cons x xs => rfl
  have himp := import_articles_checkfail st props fileRows outcomes hi
  refine ⟨?_, ?_, ?_, ?_, ?_, ?_⟩
  · rw [check_eq]
    exact hi
  · intro q hq hqm
    rw [check_eq]
    exact List.mem_filter.mpr ⟨hq, by simp [hqm]⟩
  · intro q hq
    rw [check_eq] at hq
    have := List.mem_filter.mp hq
    exact ⟨this.1, by simpa using this.2⟩
  · rw [himp]
    rfl
  · rw [himp]
  · rw [himp]

/-- Witness for C2 at a schema missing `"Domain"`, with an importer whose
counters are 3 and 2. -/
theorem C2_witness :
    (check_database_properties stPrev (some propsNoDomain)).1.1 = false ∧
    "Domain" ∈ (check_database_properties stPrev (some propsNoDomain)).1.2 ∧
    (import_articles stPrev (some propsNoDomain)
      (.ok [rowPlain]) [PublishOutcome.ok]).1.success = false ∧
    (import_articles stPrev (some propsNoDomain)
      (.ok [rowPlain]) [PublishOutcome.ok]).2.imported_count = 3 ∧
    (import_articles stPrev (some propsNoDomain)
      (.ok [rowPlain]) [PublishOutcome.ok]).2.error_count = 2 := by
  have h := C2_missing_required_property stPrev propsNoDomain "Domain" (by decide) (by decide)
    (.ok [rowPlain]) [PublishOutcome.ok]
  exact ⟨h.1, h.2.1 "Domain" (by decide) (by decide), h.2.2.2.1,
    h.2.2.2.2.1.trans (by decide), h.2.2.2.2.2.trans (by decide)⟩

/-- C3: in every payload built by `create_notion_page`, the Title content is
exactly the first 100 characters of the article's title (so a 150-character
title is cut to its first 100 characters), and whenever a Tags property is
included it holds exactly the first `min 10 n` of the article's `n` tags in
order, each tag individually truncated to at most 100 characters. -/
theorem C3_payload_limits (available : List String) (article : Article) :
    (notionProperties available article).lookup "Title" =
      some (PropValue.title (pySliceTo article.title 100)) ∧
    (pySliceTo article.title 100).length = min 100 article.title.length ∧
    (∀ ts, ("Tags", PropValue.multiSelect ts) ∈ notionProperties available article →
       ts = (article.tags.take 10).map (fun tag => pySliceTo tag 100) ∧
       ts.length = min 10 article.tags.length ∧
       ∀ t ∈ ts, t.length ≤ 100) ∧
    (article.tags ≠ [] → "Tags" ∈ available →
       ("Tags", PropValue.multiSelect
          ((article.tags.take 10).map (fun tag => pySliceTo tag 100))) ∈
         notionProperties available article) := by
  refine ⟨?_, pySliceTo_length article.title 100, ?_, ?_⟩
  · rw [notionProperties_decomp]
    simp [List.lookup]
  · intro ts hts
    rw [notionProperties_decomp] at hts
    simp only [List.mem_cons] at hts
    rcases hts with h | h | h | h | h
    · exact absurd (congrArg Prod.fst h) (by simp)
    · exact absurd (congrArg Prod.snd h) (by simp)
    · exact absurd (congrArg Prod.snd h) (by simp)
    · exact absurd (congrArg Prod.snd h) (by simp)
    · obtain ⟨-, hts⟩ := (optTail_tags available article ts).mp h
      refine ⟨hts, ?_, ?_⟩
      · rw [hts, List.length_map, List.length_take 10 article.tags]
      · intro t ht
        rw [hts] at ht
        obtain ⟨tag, -, rfl⟩ := List.mem_map.mp ht
        rw [pySliceTo_length tag 100]
        exact Nat.min_le_left 100 tag.length
  · intro h1 h2
    rw [notionProperties_decomp]
    simp only [List.mem_cons]
    exact Or.inr (Or.inr (Or.inr (Or.inr
      ((optTail_tags available article _).mpr ⟨⟨h1, h2⟩, rfl⟩))))

set_option maxRecDepth 4000 in
/-- Witness for C3 at a 150-character title and 12 tags against a schema
holding every property. -/
theorem C3_witness :
    (notionProperties fullProps articleManyTags).lookup "Title" =
      some (PropValue.title (pySliceTo longTitle 100)) ∧
    longTitle.length = 150 ∧ (pySliceTo longTitle 100).length = 100 ∧
    ("Tags", PropValue.multiSelect
       ((twelveTags.take 10).map (fun tag => pySliceTo tag 100))) ∈
      notionProperties fullProps articleManyTags ∧
    ((twelveTags.take 10).map (fun tag => pySliceTo tag 100)).length = 10 := by
  have h := C3_payload_limits fullProps articleManyTags
  exact ⟨h.1, by decide, (h.2.1).trans (by decide), h.2.2.2 (by decide) (by decide), by decide⟩

/-- C4: a run that passes the schema check and publishes a non-empty
article list returns the completed dictionary: overall success, total the
number of parsed articles, imported and errors the final counter values —
for a fresh importer, the number of succeeded and failed remote calls — and
the success rate `(imported / total) * 100` rendered to one decimal place
with a percent sign. -/
theorem C4_summary (props : List String) (rows : List Row) (arts : List Article)
    (outcomes : List PublishOutcome)
    (hreq : ∀ p ∈ required_props, p ∈ props)
    (hparse : parse_pocket_csv rows = some arts)
    (hne : arts ≠ [])
    (hlen : arts.length = outcomes.length) :
    (import_articles ImporterState.fresh (some props) (.ok rows) outcomes).1 =
      ImportResult.completed arts.length
        (outcomes.countP (fun o => o == PublishOutcome.ok))
        (outcomes.countP (fun o => o != PublishOutcome.ok))
        (formatRate (outcomes.countP (fun o => o == PublishOutcome.ok)) arts.length) ∧
    (import_articles ImporterState.fresh (some props) (.ok rows) outcomes).1.success =
      true := by
  have hfil : required_props.filter (fun q => decide (q ∉ props)) = [] :=
    List.filter_eq_nil_iff.mpr (by simpa using hreq)
  have hie : arts.isEmpty = false := by
    cases arts with
    | nil => exact absurd rfl hne
    | cons x xs => rfl
  have hrun := import_articles_run ImporterState.fresh props rows arts outcomes hfil hparse hie
  obtain ⟨h1, h2, -⟩ := publishLoop_counts arts outcomes
    { ImporterState.fresh with available_properties := props } hlen
  rw [hrun]
  refine ⟨?_, rfl⟩
  rw [h1, h2]
  simp [ImporterState.fresh]

/-- Witness for C4: a fresh importer over five articles with one failed
remote call reports `imported = 4`, `errors = 1`, `success_rate = "80.0%"`. -/
theorem C4_witness :
    (import_articles ImporterState.fresh (some required_props) (.ok rows5) outs5).1 =
      ImportResult.completed 5 4 1 "80.0%" := by
  have h := (C4_summary required_props rows5 articles5 outs5
    (by decide) (by decide) (by decide) (by decide)).1
  exact h.trans (by decide)

/-- C10: each `create_notion_page` call increments exactly one of the two
counters by one; a completed fresh run therefore satisfies
`imported + errors = total`; and the counters are never reset, so a second
`import_articles` run on the same instance folds the previous run's
increments into its own report — concretely, a 3-for-3 run followed by a
1-for-1 run reports `imported = 4` out of `total = 1`, a success rate of
`"400.0%"`. -/
theorem C10_counter_accumulation :
    (∀ (st : ImporterState) (a : Article) (o : PublishOutcome),
       ((create_notion_page st a o).2.1 = true ∧
        (create_notion_page st a o).2.2.imported_count = st.imported_count + 1 ∧
        (create_notion_page st a o).2.2.error_count = st.error_count) ∨
       ((create_notion_page st a o).2.1 = false ∧
        (create_notion_page st a o).2.2.imported_count = st.imported_count ∧
        (create_notion_page st a o).2.2.error_count = st.error_count + 1)) ∧
    (∀ (props : List String) (rows : List Row) (arts : List Article)
       (outcomes : List PublishOutcome),
       (∀ p ∈ required_props, p ∈ props) →
       parse_pocket_csv rows = some arts → arts ≠ [] →
       arts.length = outcomes.length →
       (import_articles ImporterState.fresh (some props) (.ok rows) outcomes).2.imported_count +
         (import_articles ImporterState.fresh (some props) (.ok rows) outcomes).2.error_count =
         arts.length) ∧
    (import_articles
       (import_articles ImporterState.fresh (some required_props) (.ok rows3)
         [PublishOutcome.ok, PublishOutcome.ok, PublishOutcome.ok]).2
       (some required_props) (.ok [rowPlain]) [PublishOutcome.ok]).1 =
      ImportResult.completed 1 4 0 "400.0%" := by
  refine ⟨?_, ?_, by decide⟩
  · intro st a o
    cases o with
    | ok => exact Or.inl ⟨rfl, rfl, rfl⟩
    | apiError => exact Or.inr ⟨rfl, rfl, rfl⟩
    | timeout => exact Or.inr ⟨rfl, rfl, rfl⟩
    | otherError => exact Or.inr ⟨rfl, rfl, rfl⟩
  · intro props rows arts outcomes hreq hparse hne hlen
    have hfil : required_props.filter (fun q => decide (q ∉ props)) = [] :=
      List.filter_eq_nil_iff.mpr (by simpa using hreq)
    have hie : arts.isEmpty = false := by
      cases arts with
      | nil => exact absurd rfl hne
      | cons x xs => rfl
    have hrun := import_articles_run ImporterState.fresh props rows arts outcomes hfil
      hparse hie
    obtain ⟨h1, h2, -⟩ := publishLoop_counts arts outcomes
      { ImporterState.fresh with available_properties := props } hlen
    rw [hrun]
    dsimp only
    rw [h1, h2]
    have := countP_ok_split outcomes
    simp only [ImporterState.fresh]
    omega

/-- Witness for C10 at a two-article run with one failure: the counters sum
to the article total. -/
theorem C10_witness :
    (import_articles ImporterState.fresh (some required_props)
       (.ok [rowPlain, rowNoTitle]) [PublishOutcome.ok, PublishOutcome.apiError]).2.imported_count +
      (import_articles ImporterState.fresh (some required_props)
        (.ok [rowPlain, rowNoTitle]) [PublishOutcome.ok, PublishOutcome.apiError]).2.error_count =
      2 := by
  have h := C10_counter_accumulation.2.1 required_props [rowPlain, rowNoTitle]
    [articlePlain, articleNoTitle] [PublishOutcome.ok, PublishOutcome.apiError]
    (by decide) (by decide) (by decide) (by decide)
  exact h.trans (by decide)

end Pocket2Notion
